import Mathlib

/-!
Verification of the Daliuge Data Object execution kernel against its
natural-language specification.  The repository sources available are the
Data Object test suite (`src/test/test_data_object.py`) and the manager
command-line module (`src/dfms/manager/cmdline.py`); the Data Object
implementation itself (`dfms/data_object.py`) is exercised by the tests but
not present, so its operations are modelled from the specification text and
checked against the behaviour the tests pin down.  Machine integers are
modelled as `Nat`, byte strings as `List Nat`, and fallible operations
return `Except DOError`.
-/

/-- Data Object lifecycle states (spec section 3; external codes 0..4). -/
inductive DOStates
  | INITIALIZED
  | WRITING
  | COMPLETED
  | EXPIRED
  | CANCELLED
deriving DecidableEq, Repr

/-- Execution modes (spec section 6): `DO` is self-driving, `EXTERNAL`
defers consumer invocation to an external driver. -/
inductive ExecutionMode
  | DO
  | EXTERNAL
deriving DecidableEq, Repr

/-- Conceptual error kinds of the spec's error-handling design (section 7). -/
inductive DOError
  | InvalidStateTransition
  | InvalidArgument
deriving DecidableEq, Repr

/-- True exactly when the fallible operation raised an error. -/
def isErr {ε α : Type} : Except ε α → Bool
  | .error _ => true
  | .ok _ => false

/-- Projection of a fallible result to `Option`, used to state concrete
evaluations decidably. -/
def okD {ε α : Type} : Except ε α → Option α
  | .error _ => none
  | .ok a => some a

/-! ### CRC32

`binascii.crc32(data, value)` (the fallback the test imports) is the
reflected CRC-32 with polynomial `0xEDB88320`: the running register is
initialised to `value XOR 0xFFFFFFFF`, each byte is xored in and the
register shifted bitwise eight times, and the final register is xored with
`0xFFFFFFFF` again. -/

/-- One bit step of the reflected CRC-32: shift right, conditionally xor
the reversed polynomial. -/
def crc32Bit (crc : Nat) : Nat :=
  if crc % 2 = 1 then (crc / 2) ^^^ 0xEDB88320 else crc / 2

/-- One byte step of CRC-32: xor the byte in, then eight bit steps. -/
def crc32Byte (crc b : Nat) : Nat :=
  crc32Bit^[8] (crc ^^^ (b % 256))

/-- The raw register fold over a byte string. -/
def crc32Raw (bs : List Nat) (crc : Nat) : Nat :=
  bs.foldl crc32Byte crc

/-- `crc32 data value` models Python's `crc32(data, value)`. -/
def crc32 (bs : List Nat) (v : Nat) : Nat :=
  (crc32Raw bs (v ^^^ 0xFFFFFFFF)) ^^^ 0xFFFFFFFF

theorem crc32_append (a b : List Nat) (v : Nat) :
    crc32 (a ++ b) v = crc32 b (crc32 a v) := by
  unfold crc32 crc32Raw
  rw [List.foldl_append, Nat.xor_assoc, Nat.xor_self, Nat.xor_zero]

theorem crc32_nil (v : Nat) : crc32 [] v = v := by
  unfold crc32 crc32Raw
  rw [List.foldl_nil, Nat.xor_assoc, Nat.xor_self, Nat.xor_zero]

/-! ### The Data Object - data model -/

/-- Modelled from the spec: the Data Object attribute table of section 3.
Contents model the in-memory backend buffer; `openFds` holds outstanding
read tokens; `nextFd` allocates fresh tokens; consumers are referenced by
uid. -/
structure DataObject where
  oid : String
  uid : String
  status : DOStates
  expectedSize : Option Nat
  size : Option Nat
  checksum : Option Nat
  contents : List Nat
  openFds : List Nat
  nextFd : Nat
  consumers : List String
  immediateConsumers : List String
  executionMode : ExecutionMode
deriving DecidableEq, Repr

/-- Modelled from the spec: a freshly instantiated Data Object is
INITIALIZED, with no size, no checksum and no outstanding tokens. -/
def mkDataObject (oid uid : String) (expectedSize : Option Nat)
    (mode : ExecutionMode) : DataObject :=
  { oid := oid
    uid := uid
    status := .INITIALIZED
    expectedSize := expectedSize
    size := none
    checksum := none
    contents := []
    openFds := []
    nextFd := 0
    consumers := []
    immediateConsumers := []
    executionMode := mode }

/-! ### The Data Object - operations (modelled from the spec) -/

/-- Modelled from the spec: `setCompleted` transitions
INITIALIZED/WRITING to COMPLETED; from any other state (COMPLETED,
EXPIRED, CANCELLED) the local path rejects the transition. -/
def DataObject.setCompleted (d : DataObject) : Except DOError DataObject :=
  if d.status = .INITIALIZED ∨ d.status = .WRITING then
    .ok { d with status := .COMPLETED }
  else .error .InvalidStateTransition

/-- Modelled from the spec: `write` is valid only in INITIALIZED/WRITING;
it appends to the backend, updates `size` and the accumulated `checksum`,
transitions to WRITING, and auto-invokes `setCompleted` when
`expectedSize` is reached. -/
def DataObject.write (d : DataObject) (data : List Nat) :
    Except DOError DataObject :=
  if d.status = .INITIALIZED ∨ d.status = .WRITING then
    let newSize := d.size.getD 0 + data.length
    let d' : DataObject :=
      { d with
        status := .WRITING
        size := some newSize
        checksum := some (crc32 data (d.checksum.getD 0))
        contents := d.contents ++ data }
    match d.expectedSize with
    | some e => if e ≤ newSize then d'.setCompleted else .ok d'
    | none => .ok d'
  else .error .InvalidStateTransition

/-- Modelled from the spec: `open` is valid only in COMPLETED; it returns
an opaque read token tracked in `openFds`. -/
def DataObject.openDO (d : DataObject) : Except DOError (DataObject × Nat) :=
  if d.status = .COMPLETED then
    .ok ({ d with openFds := d.openFds ++ [d.nextFd], nextFd := d.nextFd + 1 },
         d.nextFd)
  else .error .InvalidStateTransition

/-- Modelled from the spec: `read` is valid only in COMPLETED and only
with an outstanding token; unknown tokens fail. -/
def DataObject.read (d : DataObject) (tok : Nat) :
    Except DOError (List Nat) :=
  if d.status = .COMPLETED then
    if tok ∈ d.openFds then .ok d.contents
    else .error .InvalidArgument
  else .error .InvalidStateTransition

/-- Modelled from the spec: `close` releases an outstanding token; unknown
tokens fail, and a closed token becomes invalid. -/
def DataObject.close (d : DataObject) (tok : Nat) :
    Except DOError DataObject :=
  if d.status = .COMPLETED then
    if tok ∈ d.openFds then .ok { d with openFds := d.openFds.erase tok }
    else .error .InvalidArgument
  else .error .InvalidStateTransition

/-- Modelled from the spec: `isBeingRead` is true iff `openFds` is
non-empty. -/
def DataObject.isBeingRead (d : DataObject) : Bool :=
  !d.openFds.isEmpty

/-- Modelled from the spec: `addConsumer` adds to the ordered deferred set
and fails if the candidate is already an immediate consumer. -/
def DataObject.addConsumer (d : DataObject) (c : String) :
    Except DOError DataObject :=
  if c ∈ d.immediateConsumers then .error .InvalidArgument
  else .ok { d with consumers :=
    if c ∈ d.consumers then d.consumers else d.consumers ++ [c] }

/-- Modelled from the spec: `addImmediateConsumer` adds to the ordered
immediate set and fails if the candidate is already a deferred consumer. -/
def DataObject.addImmediateConsumer (d : DataObject) (c : String) :
    Except DOError DataObject :=
  if c ∈ d.consumers then .error .InvalidArgument
  else .ok { d with immediateConsumers :=
    if c ∈ d.immediateConsumers then d.immediateConsumers
    else d.immediateConsumers ++ [c] }

/-- Modelled from the spec: `checksum` is write-once through the normal
path and any reassignment after COMPLETED fails. -/
def DataObject.assignChecksum (d : DataObject) (v : Nat) :
    Except DOError DataObject :=
  if d.status = .COMPLETED then .error .InvalidArgument
  else if d.checksum.isSome then .error .InvalidArgument
  else .ok { d with checksum := some v }

/-- Modelled from the spec: `size` is write-once; it may be assigned
externally exactly when it is still unset (the out-of-band data case),
and reassignment fails. -/
def DataObject.assignSize (d : DataObject) (v : Nat) :
    Except DOError DataObject :=
  if d.size.isSome then .error .InvalidArgument
  else .ok { d with size := some v }

/-! ### setupLogging (src/dfms/manager/cmdline.py, lines 139-162) -/

/-- The `levels` list of `setupLogging`: NOTSET, DEBUG, INFO, WARNING,
ERROR, CRITICAL with their numeric values from Python's logging module. -/
def loggingLevels : List Nat := [0, 10, 20, 30, 40, 50]

/-- The index computation of `setupLogging`: `lidx = 3`, decremented by
`min(verbose, 3)` when `-v` was counted, else incremented by
`min(quiet, 2)` when `-q` was counted.  `verbose`/`quiet` are the optparse
counts, 0 standing for the unset (`None`, falsy) case. -/
def setupLoggingLidx (verbose quiet : Nat) : Int :=
  if verbose ≠ 0 then 3 - (min verbose 3 : Nat)
  else if quiet ≠ 0 then 3 + (min quiet 2 : Nat)
  else 3

/-- The level selected by `setupLogging`, `levels[lidx]`. -/
def setupLoggingLevel (verbose quiet : Nat) : Nat :=
  loggingLevels.getD (setupLoggingLidx verbose quiet).toNat 0

/-- Claim C1: only the transitions of the authoritative state machine
succeed: `write` fails in COMPLETED, EXPIRED and CANCELLED, `setCompleted`
fails from EXPIRED or CANCELLED, and `open`/`read`/`close` fail in every
state other than COMPLETED; each disallowed operation raises an error. -/
theorem stateMachine_disallowed_transitions_fail
    (d : DataObject) (data : List Nat) (tok : Nat) :
    ((d.status = .COMPLETED ∨ d.status = .EXPIRED ∨ d.status = .CANCELLED) →
      isErr (d.write data) = true) ∧
    ((d.status = .EXPIRED ∨ d.status = .CANCELLED) →
      isErr d.setCompleted = true) ∧
    (d.status ≠ .COMPLETED →
      isErr d.openDO = true ∧ isErr (d.read tok) = true ∧
      isErr (d.close tok) = true) := by
  cases h : d.status <;>
    simp [DataObject.write, DataObject.setCompleted, DataObject.openDO,
      DataObject.read, DataObject.close, h, isErr]

/-- Witness for C1: a COMPLETED Data Object rejects `write` and a fresh
INITIALIZED Data Object rejects `read`. -/
theorem stateMachine_disallowed_transitions_fail_witness :
    isErr (DataObject.write
      { mkDataObject "a" "a" none .DO with status := .COMPLETED } [49]) = true ∧
    isErr (DataObject.read (mkDataObject "a" "a" none .DO) 0) = true :=
  ⟨(stateMachine_disallowed_transitions_fail
      { mkDataObject "a" "a" none .DO with status := .COMPLETED } [49] 0).1
      (Or.inl rfl),
   ((stateMachine_disallowed_transitions_fail
      (mkDataObject "a" "a" none .DO) [49] 0).2.2 (by decide)).2.1⟩

/-- Claim C10: `setupLogging`'s level index always stays inside the
6-element `levels` list (verbose capped at 3 keeps it at least 0, quiet
capped at 2 keeps it at most 5), and with neither flag set the selected
level is WARNING (30). -/
theorem setupLogging_level_in_bounds (verbose quiet : Nat) :
    0 ≤ setupLoggingLidx verbose quiet ∧
    (setupLoggingLidx verbose quiet).toNat < loggingLevels.length ∧
    (verbose = 0 → quiet = 0 → setupLoggingLevel verbose quiet = 30) := by
  have hb : 0 ≤ setupLoggingLidx verbose quiet ∧
      (setupLoggingLidx verbose quiet).toNat < 6 := by
    unfold setupLoggingLidx
    split
    · exact ⟨by omega, by omega⟩
    · split
      · exact ⟨by omega, by omega⟩
      · exact ⟨by omega, by omega⟩
  have hlen : loggingLevels.length = 6 := rfl
  refine ⟨hb.1, by rw [hlen]; exact hb.2, ?_⟩
  intro hv hq
  subst hv; subst hq
  decide

/-- Witness for C10 at verbose = 0, quiet = 0. -/
theorem setupLogging_level_in_bounds_witness :
    0 ≤ setupLoggingLidx 0 0 ∧
    (setupLoggingLidx 0 0).toNat < loggingLevels.length ∧
    setupLoggingLevel 0 0 = 30 := by
  obtain ⟨h1, h2, h3⟩ := setupLogging_level_in_bounds 0 0
  exact ⟨h1, h2, h3 rfl rfl⟩

/-- Convenience predicate: the deferred and immediate consumer sets are
disjoint. -/
def DataObject.consumerSetsDisjoint (d : DataObject) : Prop :=
  ∀ x, x ∈ d.consumers → x ∉ d.immediateConsumers

/-- Claim C9: the deferred- and immediate-consumer sets stay disjoint:
`addConsumer` fails when the candidate is already immediate,
`addImmediateConsumer` fails when it is already deferred, and each
successful addition preserves disjointness (a failed addition returns an
error and produces no new state at all). -/
theorem consumer_sets_stay_disjoint (d : DataObject) (c : String) :
    (c ∈ d.immediateConsumers → isErr (d.addConsumer c) = true) ∧
    (c ∈ d.consumers → isErr (d.addImmediateConsumer c) = true) ∧
    (d.consumerSetsDisjoint →
      (∀ d', d.addConsumer c = .ok d' → d'.consumerSetsDisjoint) ∧
      (∀ d', d.addImmediateConsumer c = .ok d' →
        d'.consumerSetsDisjoint)) := by
  refine ⟨?_, ?_, ?_⟩
  · intro h
    simp [DataObject.addConsumer, h, isErr]
  · intro h
    simp [DataObject.addImmediateConsumer, h, isErr]
  · intro hdisj
    constructor
    · intro d' h
      unfold DataObject.addConsumer at h
      split at h
      · exact absurd h (by simp)
      · rename_i hci
        injection h with h
        subst h
        intro x hx
        simp only at hx ⊢
        split at hx
        · exact hdisj x hx
        · rcases List.mem_append.mp hx with hx | hx
          · exact hdisj x hx
          · rw [List.mem_singleton.mp hx]; exact hci
    · intro d' h
      unfold DataObject.addImmediateConsumer at h
      split at h
      · exact absurd h (by simp)
      · rename_i hcc
        injection h with h
        subst h
        intro x hx
        simp only at hx ⊢
        split
        · exact hdisj x hx
        · intro hmem
          rcases List.mem_append.mp hmem with hm | hm
          · exact hdisj x hx hm
          · exact hcc (List.mem_singleton.mp hm ▸ hx)

/-- Witness for C9: a Data Object whose immediate set already holds "b"
rejects `addConsumer "b"`. -/
theorem consumer_sets_stay_disjoint_witness :
    isErr (DataObject.addConsumer
      { mkDataObject "a" "a" none .DO with immediateConsumers := ["b"] }
      "b") = true :=
  (consumer_sets_stay_disjoint
    { mkDataObject "a" "a" none .DO with immediateConsumers := ["b"] }
    "b").1 (by decide)

/-- Claim C8: on a COMPLETED Data Object, the token returned by `open`
makes `read` and `close` succeed, any token not in the outstanding set
makes them fail, and while the token is outstanding `isBeingRead` is
true. -/
theorem read_tokens_discipline (d : DataObject)
    (h : d.status = .COMPLETED) :
    ∃ d' tok, d.openDO = .ok (d', tok) ∧
      (∃ data, d'.read tok = .ok data) ∧
      (∃ d'', d'.close tok = .ok d'') ∧
      (∀ t, t ∉ d'.openFds →
        isErr (d'.read t) = true ∧ isErr (d'.close t) = true) ∧
      d'.isBeingRead = true := by
  refine ⟨({ d with openFds := d.openFds ++ [d.nextFd], nextFd := d.nextFd + 1 } : DataObject),
          d.nextFd, ?_, ?_, ?_, ?_, ?_⟩
  · unfold DataObject.openDO
    rw [if_pos h]
  · refine ⟨d.contents, ?_⟩
    unfold DataObject.read
    rw [if_pos h, if_pos (by simp)]
  · refine ⟨({ d with openFds := (d.openFds ++ [d.nextFd]).erase d.nextFd, nextFd := d.nextFd + 1 } : DataObject), ?_⟩
    unfold DataObject.close
    rw [if_pos h, if_pos (by simp)]
  · intro t ht
    constructor
    · unfold DataObject.read
      rw [if_pos h, if_neg ht]
      rfl
    · unfold DataObject.close
      rw [if_pos h, if_neg ht]
      rfl
  · simp [DataObject.isBeingRead]

/-- Witness for C8 at a concrete COMPLETED Data Object. -/
theorem read_tokens_discipline_witness :
    (DataObject.status
      { mkDataObject "a" "a" none .DO with status := .COMPLETED }
      = .COMPLETED) ∧
    ∃ d' tok,
      DataObject.openDO
        { mkDataObject "a" "a" none .DO with status := .COMPLETED }
        = .ok (d', tok) ∧
      (∃ data, d'.read tok = .ok data) ∧
      (∃ d'', d'.close tok = .ok d'') ∧
      (∀ t, t ∉ d'.openFds →
        isErr (d'.read t) = true ∧ isErr (d'.close t) = true) ∧
      d'.isBeingRead = true :=
  ⟨rfl, read_tokens_discipline
    { mkDataObject "a" "a" none .DO with status := .COMPLETED } rfl⟩

/-- Claim C7: once a Data Object is COMPLETED, reassigning `checksum`
fails, reassigning a set `size` fails, and exactly one exception remains:
when no write passed through the DO, `checksum` stays `none` and `size`
stays `none` after `setCompleted`, and `size` may then be assigned
externally exactly once (a second assignment fails). -/
theorem checksum_size_frozen_after_completed
    (d : DataObject) (v w : Nat) :
    (d.status = .COMPLETED → isErr (d.assignChecksum v) = true) ∧
    (d.status = .COMPLETED → d.size.isSome →
      isErr (d.assignSize v) = true) ∧
    (d.status = .COMPLETED → d.size = none →
      ∃ d', d.assignSize v = .ok d' ∧ d'.size = some v ∧
        isErr (d'.assignSize w) = true) ∧
    (∀ oid uid m, ∃ g,
      (mkDataObject oid uid none m).setCompleted = .ok g ∧
      g.checksum = none ∧ g.size = none) := by
  refine ⟨?_, ?_, ?_, ?_⟩
  · intro h
    simp [DataObject.assignChecksum, h, isErr]
  · intro _ h
    simp [DataObject.assignSize, h, isErr]
  · intro _ h
    refine ⟨{ d with size := some v }, ?_, rfl, ?_⟩
    · unfold DataObject.assignSize
      rw [if_neg (by simp [h])]
    · simp [DataObject.assignSize, isErr]
  · intro oid uid m
    exact ⟨_, rfl, rfl, rfl⟩

/-- Witness for C7: a COMPLETED out-of-band Data Object (no writes, size
unset) rejects checksum assignment yet accepts a single size
assignment. -/
theorem checksum_size_frozen_after_completed_witness :
    let d : DataObject :=
      { mkDataObject "a" "a" none .DO with status := .COMPLETED }
    isErr (d.assignChecksum 0) = true ∧
    ∃ d', d.assignSize 9 = .ok d' ∧ d'.size = some 9 ∧
      isErr (d'.assignSize 0) = true := by
  intro d
  exact ⟨(checksum_size_frozen_after_completed d 0 0).1 rfl,
    (checksum_size_frozen_after_completed d 9 0).2.2.1 rfl rfl⟩

/-! ### Sequences of writes and the CRC-result consumer (claim C2) -/

/-- Concatenation of a sequence of byte blocks. -/
def concatBlocks : List (List Nat) → List Nat
  | [] => []
  | b :: bs => b ++ concatBlocks bs

/-- Write a sequence of blocks through a Data Object, stopping at the
first error. -/
def writeAll (d : DataObject) : List (List Nat) → Except DOError DataObject
  | [] => .ok d
  | b :: bs =>
    match d.write b with
    | .ok d' => writeAll d' bs
    | .error e => .error e

/-- Little-endian decimal digits of `n`, with explicit fuel so the
function is structural (the fuel `n` itself always suffices). -/
def decDigitsAux : Nat → Nat → List Nat
  | 0, _ => []
  | fuel + 1, n => if n = 0 then [] else n % 10 :: decDigitsAux fuel (n / 10)

/-- Little-endian decimal digits of `n`. -/
def decDigits (n : Nat) : List Nat := decDigitsAux n n

/-- Value of a little-endian decimal digit list. -/
def decValue : List Nat → Nat
  | [] => 0
  | d :: ds => d + 10 * decValue ds

/-- Models Python's `str` on a non-negative integer: most-significant
digit first, as ASCII bytes. -/
def natToDecimalBytes (n : Nat) : List Nat :=
  ((decDigits n).map (· + 48)).reverse

/-- Models Python's `int` on a decimal string given as ASCII bytes. -/
def decimalBytesToNat (bs : List Nat) : Nat :=
  decValue (bs.reverse.map (· - 48))

theorem decValue_decDigitsAux :
    ∀ (fuel n : Nat), n ≤ fuel → decValue (decDigitsAux fuel n) = n := by
  intro fuel
  induction fuel with
  | zero => intro n h; interval_cases n; rfl
  | succ fuel ih =>
    intro n h
    unfold decDigitsAux
    by_cases hn : n = 0
    · simp [hn, decValue]
    · rw [if_neg hn]
      unfold decValue
      rw [ih (n / 10) (by omega)]
      omega

theorem decimal_roundtrip (n : Nat) :
    decimalBytesToNat (natToDecimalBytes n) = n := by
  unfold decimalBytesToNat natToDecimalBytes
  rw [List.reverse_reverse, List.map_map]
  have hid : ((fun x => x - 48) ∘ fun x => x + 48) = id := by
    funext x; simp
  rw [hid, List.map_id]
  exact decValue_decDigitsAux n n le_rfl

/-- Modelled from the spec: the deferred-consumer invocation
`C.consume(P)` of the triggering rules (section 4.3) for the CRC-result
consumer: open the producer, read its full contents, close it, write the
decimal rendering of their CRC32 into the consumer's own backend, and
complete the consumer.  Returns the updated (consumer, producer) pair. -/
def consumeCRC (consumer producer : DataObject) :
    Except DOError (DataObject × DataObject) :=
  match producer.openDO with
  | .error e => .error e
  | .ok (p1, tok) =>
    match p1.read tok with
    | .error e => .error e
    | .ok data =>
      match p1.close tok with
      | .error e => .error e
      | .ok p2 =>
        match consumer.write (natToDecimalBytes (crc32 data 0)) with
        | .error e => .error e
        | .ok c1 =>
          match c1.setCompleted with
          | .error e => .error e
          | .ok c2 => .ok (c2, p2)

theorem consumeCRC_ok (consumer producer : DataObject)
    (hp : producer.status = .COMPLETED)
    (hB : consumer.status = .INITIALIZED) (hBe : consumer.expectedSize = none)
    (hBc : consumer.contents = []) :
    ∃ c2 p2, consumeCRC consumer producer = .ok (c2, p2) ∧
      c2.status = .COMPLETED ∧
      c2.contents = natToDecimalBytes (crc32 producer.contents 0) ∧
      p2.status = .COMPLETED := by
  unfold consumeCRC DataObject.openDO DataObject.read DataObject.close
  rw [if_pos hp]
  simp only [hp, if_pos rfl, List.mem_append, List.mem_singleton, or_true,
    if_true, if_pos (Or.inr rfl)]
  unfold DataObject.write
  rw [if_pos (Or.inl hB), hBe]
  unfold DataObject.setCompleted
  simp only [if_pos (Or.inr rfl)]
  exact ⟨_, _, rfl, rfl, by simp [hBc], rfl⟩

theorem writeAll_ok :
    ∀ (bs : List (List Nat)) (d : DataObject) (c : Nat),
    (d.status = .INITIALIZED ∨ d.status = .WRITING) →
    d.expectedSize = none → d.checksum.getD 0 = c →
    ∃ d', writeAll d bs = .ok d' ∧
      d'.checksum.getD 0 = crc32 (concatBlocks bs) c ∧
      ((bs ≠ [] ∨ d.checksum.isSome = true) → ∃ k, d'.checksum = some k) ∧
      d'.contents = d.contents ++ concatBlocks bs ∧
      (d'.status = .INITIALIZED ∨ d'.status = .WRITING) ∧
      d'.expectedSize = none := by
  intro bs
  induction bs with
  | nil =>
    intro d c h1 h2 h3
    refine ⟨d, rfl, ?_, ?_, by rw [concatBlocks, List.append_nil], h1, h2⟩
    · rw [concatBlocks, crc32_nil]; exact h3
    · rintro (h | h)
      · exact absurd rfl h
      · exact Option.isSome_iff_exists.mp h
  | cons b rest ih =>
    intro d c h1 h2 h3
    have hw : d.write b = .ok
        ({ d with status := .WRITING, size := some (d.size.getD 0 + b.length), checksum := some (crc32 b c), contents := d.contents ++ b } : DataObject) := by
      unfold DataObject.write
      rw [if_pos h1, h2, h3]
    obtain ⟨d', hall, hck, hsome, hct, hst, hes⟩ :=
      ih ({ d with status := .WRITING, size := some (d.size.getD 0 + b.length), checksum := some (crc32 b c), contents := d.contents ++ b } : DataObject)
        (crc32 b c) (Or.inr rfl) h2 rfl
    refine ⟨d', ?_, ?_, ?_, ?_, hst, hes⟩
    · unfold writeAll
      rw [hw]
      exact hall
    · rw [show concatBlocks (b :: rest) = b ++ concatBlocks rest from rfl,
        crc32_append]
      exact hck
    · intro _
      exact hsome (Or.inr rfl)
    · rw [hct, show concatBlocks (b :: rest) = b ++ concatBlocks rest from rfl,
        List.append_assoc]

/-- Claim C2: the checksum accumulated incrementally across a sequence of
written blocks equals the CRC32 of their concatenation, and after the
producer completes, the integer parsed from the attached CRC-result
consumer's full contents equals the producer's checksum. -/
theorem checksum_incremental_matches_concat (bs : List (List Nat))
    (hbs : bs ≠ []) :
    ∃ dA, writeAll (mkDataObject "oid:A" "uid:A" none .DO) bs = .ok dA ∧
      dA.checksum = some (crc32 (concatBlocks bs) 0) ∧
      ∃ dA2, dA.setCompleted = .ok dA2 ∧
        ∃ dB2 dA3,
          consumeCRC (mkDataObject "oid:B" "uid:B" none .DO) dA2
            = .ok (dB2, dA3) ∧
          dB2.status = .COMPLETED ∧
          some (decimalBytesToNat dB2.contents) = dA.checksum := by
  obtain ⟨dA, hall, hck, hsome, hct, hst, _⟩ :=
    writeAll_ok bs (mkDataObject "oid:A" "uid:A" none .DO) 0
      (Or.inl rfl) rfl rfl
  obtain ⟨k, hk⟩ := hsome (Or.inl hbs)
  have hck' : dA.checksum = some (crc32 (concatBlocks bs) 0) := by
    rw [hk]
    rw [hk] at hck
    simp only [Option.getD_some] at hck
    rw [hck]
  refine ⟨dA, hall, hck', ?_⟩
  have hsc : dA.setCompleted =
      .ok ({ dA with status := .COMPLETED } : DataObject) := by
    unfold DataObject.setCompleted
    rw [if_pos hst]
  refine ⟨_, hsc, ?_⟩
  obtain ⟨c2, p2, hcc, hc2st, hc2ct, _⟩ :=
    consumeCRC_ok (mkDataObject "oid:B" "uid:B" none .DO)
      ({ dA with status := .COMPLETED } : DataObject) rfl rfl rfl rfl
  refine ⟨c2, p2, hcc, hc2st, ?_⟩
  rw [hc2ct]
  show some (decimalBytesToNat (natToDecimalBytes (crc32 dA.contents 0)))
    = dA.checksum
  rw [decimal_roundtrip, hck']
  have hcte : dA.contents = concatBlocks bs := by
    simpa [mkDataObject] using hct
  rw [hcte]

/-- Witness for C2 at a concrete two-byte block sequence. -/
theorem checksum_incremental_matches_concat_witness :
    ([[104, 105]] : List (List Nat)) ≠ [] ∧
    ∃ dA, writeAll (mkDataObject "oid:A" "uid:A" none .DO) [[104, 105]]
        = .ok dA ∧
      dA.checksum = some (crc32 (concatBlocks [[104, 105]]) 0) ∧
      ∃ dA2, dA.setCompleted = .ok dA2 ∧
        ∃ dB2 dA3,
          consumeCRC (mkDataObject "oid:B" "uid:B" none .DO) dA2
            = .ok (dB2, dA3) ∧
          dB2.status = .COMPLETED ∧
          some (decimalBytesToNat dB2.contents) = dA.checksum :=
  ⟨by decide, checksum_incremental_matches_concat [[104, 105]] (by decide)⟩

/-! ### Execution modes (claim C4) -/

/-- A producer A wired to a deferred CRC-result consumer B. -/
structure TwoDOSystem where
  A : DataObject
  B : DataObject

/-- Modelled from the spec: a write into the producer; when the write
makes the producer COMPLETED (expectedSize reached), the completion step
runs: under `executionMode = DO` the deferred consumer is invoked via
`consume`, under `EXTERNAL` nothing happens until an external driver
calls `consume` itself. -/
def TwoDOSystem.writeA (s : TwoDOSystem) (data : List Nat) :
    Except DOError TwoDOSystem :=
  match s.A.write data with
  | .error e => .error e
  | .ok a' =>
    if a'.status = .COMPLETED then
      match a'.executionMode with
      | .DO =>
        match consumeCRC s.B a' with
        | .error e => .error e
        | .ok (b', a'') => .ok ⟨a'', b'⟩
      | .EXTERNAL => .ok ⟨a', s.B⟩
    else .ok ⟨a', s.B⟩

/-- Claim C4: with expectedSize = 1, writing one byte completes the
producer; in mode DO the deferred consumer is COMPLETED as part of that
completion, while in mode EXTERNAL it stays INITIALIZED until the driver
calls `consume(A)`, after which it is COMPLETED. -/
theorem executionMode_drives_consumer (b : Nat) :
    (∃ s1, TwoDOSystem.writeA
        ⟨mkDataObject "a" "a" (some 1) .DO, mkDataObject "b" "b" none .DO⟩
        [b] = .ok s1 ∧
      s1.A.status = .COMPLETED ∧ s1.B.status = .COMPLETED) ∧
    (∃ s1, TwoDOSystem.writeA
        ⟨mkDataObject "a" "a" (some 1) .EXTERNAL,
         mkDataObject "b" "b" none .EXTERNAL⟩
        [b] = .ok s1 ∧
      s1.A.status = .COMPLETED ∧ s1.B.status = .INITIALIZED ∧
      ∃ b2 a2, consumeCRC s1.B s1.A = .ok (b2, a2) ∧
        b2.status = .COMPLETED) := by
  constructor
  · have hw : (mkDataObject "a" "a" (some 1) .DO).write [b] = .ok
        ({ oid := "a", uid := "a", status := .COMPLETED, expectedSize := some 1, size := some 1, checksum := some (crc32 [b] 0), contents := [b], openFds := [], nextFd := 0, consumers := [], immediateConsumers := [], executionMode := .DO } : DataObject) := rfl
    obtain ⟨b2, a2, hcc, hb2st, _, ha2st⟩ :=
      consumeCRC_ok (mkDataObject "b" "b" none .DO)
        ({ oid := "a", uid := "a", status := .COMPLETED, expectedSize := some 1, size := some 1, checksum := some (crc32 [b] 0), contents := [b], openFds := [], nextFd := 0, consumers := [], immediateConsumers := [], executionMode := .DO } : DataObject)
        rfl rfl rfl rfl
    refine ⟨⟨a2, b2⟩, ?_, ha2st, hb2st⟩
    unfold TwoDOSystem.writeA
    rw [hw]
    simp [hcc]
  · have hw : (mkDataObject "a" "a" (some 1) .EXTERNAL).write [b] = .ok
        ({ oid := "a", uid := "a", status := .COMPLETED, expectedSize := some 1, size := some 1, checksum := some (crc32 [b] 0), contents := [b], openFds := [], nextFd := 0, consumers := [], immediateConsumers := [], executionMode := .EXTERNAL } : DataObject) := rfl
    refine ⟨⟨({ oid := "a", uid := "a", status := .COMPLETED, expectedSize := some 1, size := some 1, checksum := some (crc32 [b] 0), contents := [b], openFds := [], nextFd := 0, consumers := [], immediateConsumers := [], executionMode := .EXTERNAL } : DataObject), mkDataObject "b" "b" none .EXTERNAL⟩, ?_, rfl, rfl, ?_⟩
    · unfold TwoDOSystem.writeA
      rw [hw]
      rfl
    · obtain ⟨b2, a2, hcc, hb2st, _, _⟩ :=
        consumeCRC_ok (mkDataObject "b" "b" none .EXTERNAL)
          ({ oid := "a", uid := "a", status := .COMPLETED, expectedSize := some 1, size := some 1, checksum := some (crc32 [b] 0), contents := [b], openFds := [], nextFd := 0, consumers := [], immediateConsumers := [], executionMode := .EXTERNAL } : DataObject)
          rfl rfl rfl rfl
      exact ⟨b2, a2, hcc, hb2st⟩

/-! ### Immediate consumers (claim C5) -/

/-- A producer A with an immediate LastCharWriter consumer B (recording
the last character of each write, src/test lines 597-606) and a deferred
CRC-result consumer C. -/
structure ImmSystem where
  A : DataObject
  B : DataObject
  lastChar : Option Nat
  C : DataObject

/-- Modelled from the spec: a producer write is delivered synchronously
to the immediate consumer via `consume(bytes)` before the write returns;
the LastCharWriter records the block's last byte and writes it into its
own backend.  The deferred consumer is untouched by writes. -/
def ImmSystem.writeA (s : ImmSystem) (data : List Nat) :
    Except DOError ImmSystem :=
  match s.A.write data with
  | .error e => .error e
  | .ok a' =>
    match data.getLast? with
    | some ch =>
      match s.B.write [ch] with
      | .error e => .error e
      | .ok b' => .ok ⟨a', b', some ch, s.C⟩
    | none => .ok ⟨a', s.B, s.lastChar, s.C⟩

/-- Modelled from the spec: `setCompleted` on the producer calls
`consumptionCompleted()` on the immediate consumer (which completes
itself, src/test lines 603-604) and then invokes the deferred consumer
under `executionMode = DO`. -/
def ImmSystem.complete (s : ImmSystem) : Except DOError ImmSystem :=
  match s.A.setCompleted with
  | .error e => .error e
  | .ok a' =>
    match s.B.setCompleted with
    | .error e => .error e
    | .ok b' =>
      match consumeCRC s.C a' with
      | .error e => .error e
      | .ok (c', a'') => .ok ⟨a'', b', s.lastChar, c'⟩

/-- The initial system of the immediate-consumer scenario. -/
def immInit : ImmSystem :=
  ⟨mkDataObject "a" "a" none .DO, mkDataObject "b" "b" none .DO, none,
   mkDataObject "c" "c" none .DO⟩

/-- Claim C5: every write into the producer is delivered synchronously to
the immediate consumer (its recorded last character becomes the block's
last byte, the deferred consumer untouched); concretely, writing "abcde",
"fghij", "k" records 'e', 'j', 'k' with C INITIALIZED throughout, and
`setCompleted` brings both B and C to COMPLETED. -/
theorem immediate_consumer_sync_delivery :
    (∀ (s s' : ImmSystem) (data : List Nat), data ≠ [] →
      s.writeA data = .ok s' →
      s'.lastChar = data.getLast? ∧ s'.C = s.C) ∧
    ((okD (immInit.writeA [97, 98, 99, 100, 101])).map
        (fun s => (s.lastChar, s.A.status, s.B.status, s.C.status))
      = some (some 101, .WRITING, .WRITING, .INITIALIZED)) ∧
    ((okD ((immInit.writeA [97, 98, 99, 100, 101]).bind
        (fun s => s.writeA [102, 103, 104, 105, 106]))).map
        (fun s => (s.lastChar, s.C.status))
      = some (some 106, .INITIALIZED)) ∧
    ((okD ((immInit.writeA [97, 98, 99, 100, 101]).bind
        (fun s => (s.writeA [102, 103, 104, 105, 106]).bind
          (fun t => (t.writeA [107]).bind ImmSystem.complete)))).map
        (fun s => (s.lastChar, s.A.status, s.B.status, s.C.status))
      = some (some 107, .COMPLETED, .COMPLETED, .COMPLETED)) := by
  refine ⟨?_, by decide, by decide, by decide⟩
  intro s s' data hne h
  unfold ImmSystem.writeA at h
  split at h
  · exact absurd h (by simp)
  · split at h
    · split at h
      · exact absurd h (by simp)
      · injection h with h
        subst h
        refine ⟨?_, rfl⟩
        simp_all
    · rename_i hnone
      have hs := List.getLast?_isSome.mpr hne
      rw [hnone] at hs
      cases hs

/-- Witness for C5: the synchronous-delivery clause applied at the first
concrete write of the scenario. -/
theorem immediate_consumer_sync_delivery_witness :
    ([97, 98, 99, 100, 101] : List Nat) ≠ [] ∧
    ∀ s', immInit.writeA [97, 98, 99, 100, 101] = .ok s' →
      s'.lastChar = ([97, 98, 99, 100, 101] : List Nat).getLast? ∧
      s'.C = immInit.C :=
  ⟨by decide, fun s' h =>
    immediate_consumer_sync_delivery.1 immInit s' [97, 98, 99, 100, 101]
      (by decide) h⟩

/-! ### Container status mirrors children (claim C6) -/

/-- All children COMPLETED. -/
def allCompleted (l : List DOStates) : Bool :=
  l.all (fun k => k == DOStates.COMPLETED)

/-- A container Data Object abstracted to its children's statuses and its
own status. -/
structure ContState where
  kids : List DOStates
  cont : DOStates

/-- Modelled from the spec: the container listens on each child's
status-change event and transitions to COMPLETED when all children have
reached COMPLETED. -/
def containerReact (s : ContState) : ContState :=
  if allCompleted s.kids then { s with cont := .COMPLETED } else s

/-- A child lifecycle event: a first write (INITIALIZED/WRITING →
WRITING) or a completion (INITIALIZED/WRITING → COMPLETED); the guard
mirrors the child's own `write`/`setCompleted` validity. -/
inductive ChildEvent
  | writeChild (i : Nat)
  | completeChild (i : Nat)

/-- Modelled from the spec: a child status-change event delivered to the
container: the child's status is updated (subject to the child's own
transition validity) and the container reacts. -/
def applyChild (s : ContState) (i : Nat) (st : DOStates) : ContState :=
  match s.kids.get? i with
  | some k =>
    if k = DOStates.INITIALIZED ∨ k = DOStates.WRITING then
      containerReact { s with kids := s.kids.set i st }
    else s
  | none => s

/-- Modelled from the spec: a child's first write or its completion,
followed by the container's reaction. -/
def contStep (s : ContState) : ChildEvent → ContState
  | .writeChild i => applyChild s i .WRITING
  | .completeChild i => applyChild s i .COMPLETED

/-- Run a sequence of child events. -/
def runEvents (s : ContState) (es : List ChildEvent) : ContState :=
  es.foldl contStep s

/-- A container over `n` fresh children. -/
def contInit (n : Nat) : ContState :=
  ⟨List.replicate n .INITIALIZED, .INITIALIZED⟩

/-- The container invariant: status COMPLETED iff every child is
COMPLETED. -/
def ContState.mirrors (s : ContState) : Prop :=
  s.cont = .COMPLETED ↔ allCompleted s.kids = true

theorem allCompleted_iff (l : List DOStates) :
    allCompleted l = true ↔ ∀ x ∈ l, x = .COMPLETED := by
  simp [allCompleted, List.all_eq_true]


theorem applyChild_mirrors (s : ContState) (i : Nat) (st : DOStates)
    (h : s.mirrors) : (applyChild s i st).mirrors := by
  unfold applyChild
  cases hk : s.kids.get? i with
  | none => exact h
  | some k =>
    show (if k = DOStates.INITIALIZED ∨ k = DOStates.WRITING then
        containerReact { s with kids := s.kids.set i st } else s).mirrors
    by_cases hg : k = DOStates.INITIALIZED ∨ k = DOStates.WRITING
    · rw [if_pos hg]
      unfold containerReact
      by_cases hall : allCompleted (s.kids.set i st) = true
      · rw [if_pos hall]
        exact ⟨fun _ => hall, fun _ => rfl⟩
      · rw [if_neg hall]
        have hknc : k ≠ DOStates.COMPLETED := by
          rcases hg with hg | hg <;> simp [hg]
        have holdall : allCompleted s.kids ≠ true := fun hc =>
          hknc ((allCompleted_iff s.kids).mp hc k (List.get?_mem hk))
        exact ⟨fun hc => absurd (h.mp hc) holdall, fun hc => absurd hc hall⟩
    · rw [if_neg hg]
      exact h

theorem contStep_mirrors (s : ContState) (e : ChildEvent)
    (h : s.mirrors) : (contStep s e).mirrors := by
  cases e with
  | writeChild i => exact applyChild_mirrors s i .WRITING h
  | completeChild i => exact applyChild_mirrors s i .COMPLETED h

theorem runEvents_mirrors :
    ∀ (es : List ChildEvent) (s : ContState), s.mirrors →
      (runEvents s es).mirrors := by
  intro es
  induction es with
  | nil => intro s hs; exact hs
  | cons e rest ih =>
    intro s hs
    exact ih (contStep s e) (contStep_mirrors s e hs)

/-- Claim C6: after every sequence of child lifecycle events, a container
over at least one child is COMPLETED iff all its children are COMPLETED;
in particular completing both children of a two-child container (as the
container-app consumer does) completes the container. -/
theorem container_completed_iff_children (n : Nat) (es : List ChildEvent)
    (hn : 1 ≤ n) :
    (runEvents (contInit n) es).mirrors ∧
    (runEvents (contInit 2)
      [.completeChild 0, .completeChild 1]).cont = .COMPLETED := by
  constructor
  · apply runEvents_mirrors
    unfold ContState.mirrors contInit
    constructor
    · intro hc
      cases hc
    · intro hall
      have := (allCompleted_iff _).mp hall DOStates.INITIALIZED
        (List.mem_replicate.mpr ⟨by omega, rfl⟩)
      cases this
  · decide

/-- Witness for C6 at a two-child container completing both children. -/
theorem container_completed_iff_children_witness :
    1 ≤ 2 ∧ (runEvents (contInit 2)
      [.completeChild 0, .completeChild 1]).mirrors :=
  ⟨by decide,
   (container_completed_iff_children 2
     [.completeChild 0, .completeChild 1] (by decide)).1⟩

/-! ### The sumup container checksum consumer (claim C3) -/

/-- A Data Object abstracted to what `sumUpCRC` inspects: a non-container
child carries a checksum, a container child carries children. -/
inductive DONode where
  | leaf (checksum : Nat)
  | container (children : List DONode)

mutual

/-- The value the claim describes: the sum of the checksums of all
non-container descendant children, recursing into nested containers. -/
def descendantCRCSum : DONode → Nat
  | .leaf ck => ck
  | .container cs => descendantCRCSumList cs

def descendantCRCSumList : List DONode → Nat
  | [] => 0
  | c :: rest => descendantCRCSum c + descendantCRCSumList rest

end

/-- Embedding of `SumupContainerChecksum.sumUpCRC`
(src/test/test_data_object.py lines 63-69).  `top` is the `container`
argument the Python loop iterates over; on meeting a container child the
Python code recurses on the OUTER container
(`crcSum += self.sumUpCRC(container, crcSum)`), not the child.  `fuel`
bounds the recursion depth; `none` models the recursion that never
returns no matter how deep it is allowed to go. -/
def sumUpCRCSrc : Nat → List DONode → List DONode → Nat → Option Nat
  | _, _, [], crcSum => some crcSum
  | 0, _, DONode.container _ :: _, _ => none
  | fuel + 1, top, DONode.container _ :: rest, crcSum =>
    match sumUpCRCSrc fuel top top crcSum with
    | none => none
    | some v => sumUpCRCSrc (fuel + 1) top rest (crcSum + v)
  | fuel, top, DONode.leaf ck :: rest, crcSum =>
    sumUpCRCSrc fuel top rest (crcSum + ck)
termination_by fuel _ rem _ => (fuel, rem.length)

theorem sumUpCRCSrc_diverges (top : List DONode)
    (htop : ∃ cs, DONode.container cs ∈ top) :
    ∀ (fuel : Nat) (rem : List DONode) (crcSum : Nat),
      (∃ cs, DONode.container cs ∈ rem) →
      sumUpCRCSrc fuel top rem crcSum = none := by
  intro fuel
  induction fuel using Nat.strong_induction_on with
  | _ fuel ih =>
    intro rem
    induction rem with
    | nil =>
      rintro crcSum ⟨cs, hmem⟩
      cases hmem
    | cons c rest ihr =>
      rintro crcSum ⟨cs, hmem⟩
      cases c with
      | container l =>
        cases fuel with
        | zero => simp [sumUpCRCSrc]
        | succ fuel' =>
          have hinner := ih fuel' (Nat.lt_succ_self fuel') top crcSum htop
          simp [sumUpCRCSrc, hinner]
      | leaf ck =>
        simp only [sumUpCRCSrc]
        apply ihr
        rcases List.mem_cons.mp hmem with h | h
        · cases h
        · exact ⟨cs, h⟩

theorem sumUpCRCSrc_flat :
    ∀ (cks : List Nat) (fuel : Nat) (top : List DONode) (s : Nat),
      sumUpCRCSrc fuel top (cks.map DONode.leaf) s = some (s + cks.sum) := by
  intro cks
  induction cks with
  | nil => intro fuel top s; simp [sumUpCRCSrc]
  | cons ck rest ih =>
    intro fuel top s
    rw [List.map_cons]
    simp only [sumUpCRCSrc]
    rw [ih]
    simp [Nat.add_assoc]

/-- Claim C3: the source `sumUpCRC` recurses on the OUTER container when
it meets a nested container child, so on any container having a container
child it never returns (none for every recursion budget) instead of the
descendant checksum sum the claim describes (1 for the failing input
below); on a flat container with three leaf children it does return the
sum of the three checksums, as the join test exercises. -/
theorem sumUpCRC_recurses_on_outer_container (fuel c1 c2 c3 : Nat) :
    sumUpCRCSrc fuel [DONode.container [DONode.leaf 1]]
      [DONode.container [DONode.leaf 1]] 0 = none ∧
    descendantCRCSum
      (DONode.container [DONode.container [DONode.leaf 1]]) = 1 ∧
    sumUpCRCSrc fuel [DONode.leaf c1, DONode.leaf c2, DONode.leaf c3]
      [DONode.leaf c1, DONode.leaf c2, DONode.leaf c3] 0
      = some (c1 + c2 + c3) := by
  refine ⟨?_, rfl, ?_⟩
  · exact sumUpCRCSrc_diverges _ ⟨[DONode.leaf 1], by simp⟩ fuel _ 0
      ⟨[DONode.leaf 1], by simp⟩
  · have h := sumUpCRCSrc_flat [c1, c2, c3] fuel
      [DONode.leaf c1, DONode.leaf c2, DONode.leaf c3] 0
    simp only [List.map_cons, List.map_nil, List.sum_cons, List.sum_nil] at h
    rw [h]
    congr 1
    omega
